import Mathlib

/-!
Verification of the school attendance system's core logic (src/app), as a
shallow embedding. ORM rows become structures, the database session becomes
an explicit record of lists, and each endpoint handler of src/app/main.py
becomes a function returning the HTTP outcome together with the possibly
updated store. Machine-level concerns (SQL engine, HTTP framework, JWT
signing) are out of scope exactly as the spec excludes them.
-/

deriving instance DecidableEq for Except

/-- Python str.lower, modelled character-wise (the ASCII case mapping, which
covers the role strings at issue). -/
def strLower (s : String) : String := ⟨s.data.map Char.toLower⟩

/-- HTTP error outcome: status code plus detail string (FastAPI
HTTPException in main.py). -/
structure HTTPError where
  status_code : Nat
  detail : String
deriving DecidableEq

/-- Row of the users table (models.py, class User). Columns: id (integer
primary key), full_name, email (unique), password, role. Class User declares
no reset_token column: the reset_token assignment on models.py line 7 stands
at module level, outside the class body. -/
structure UserRow where
  id : Nat
  full_name : String
  email : String
  password : String
  role : String
deriving DecidableEq

/-- A datetime, reduced to what mark_attendance consumes: the calendar day
(abstract day index, datetime.date) and the time of day in microseconds since
midnight (the resolution of Python datetime.time). -/
structure Datetime where
  day : Nat
  micros : Nat
deriving DecidableEq

/-- Row of the attendance table (models.py, class Attendance). Columns: id
(integer primary key), user_id (foreign key to users.id), date, check_in,
status. models.py declares no UNIQUE constraint on (user_id, date). -/
structure AttendanceRow where
  id : Nat
  user_id : Nat
  date : Nat
  check_in : Datetime
  status : String
deriving DecidableEq

/-- The persistent store: the two tables plus the autoincrement counters for
their integer primary keys. -/
structure Db where
  users : List UserRow
  attendance : List AttendanceRow
  nextUserId : Nat
  nextAttendanceId : Nat
deriving DecidableEq

/-- A store with empty tables. -/
def emptyDb : Db := ⟨[], [], 1, 1⟩

/-- Request body of POST /register (schemas.py, UserCreate). role defaults to
"staff" at the pydantic boundary, but any caller-supplied string reaches the
handler. Python str.lower is modelled by strLower. -/
structure UserCreate where
  full_name : String
  email : String
  password : String
  role : String
deriving DecidableEq

/-- Modelled from the spec: src/app/auth.py (hash_password) is imported by
main.py but absent from src. Spec section 4.1 asks for a one-way digest of
the plaintext; it is modelled as an injective tagging so that verification
succeeds exactly on the original plaintext. -/
def hash_password (plaintext : String) : String := "$hash$" ++ plaintext

/-- Modelled from the spec: src/app/auth.py (verify_password) is absent from
src. Spec section 4.1: verify(plaintext, digest) is true iff digest is a
digest of plaintext. -/
def verify_password (plaintext digest : String) : Bool :=
  digest == hash_password plaintext

/-- Modelled from the spec: src/app/auth.py (create_access_token) is absent
from src. Spec section 4.2: a signed token embedding subject and role; the
signature machinery is irrelevant to the claims checked here, so the token is
modelled as an opaque encoding of both claims. -/
def create_access_token (sub role : String) : String :=
  "token:" ++ sub ++ ":" ++ role

/-- Microseconds since midnight of the clock time h:m:s. -/
def microsOfTime (h m s : Nat) : Nat := ((h * 60 + m) * 60 + s) * 1000000

/-- main.py line 208: late_time = time(7, 30). -/
def late_time : Nat := microsOfTime 7 30 0

/-- main.py line 209: close_time = time(8, 00). -/
def close_time : Nat := microsOfTime 8 0 0

/-- An IPv4 address a.b.c.d as a 32-bit number. -/
def ipv4 (a b c d : Nat) : Nat := ((a * 256 + b) * 256 + c) * 256 + d

/-- Membership of an address in the network base/len, with Python ipaddress
semantics: the top len bits of the 32-bit addresses agree. -/
def inNetwork (ip base len : Nat) : Bool :=
  ip / 2 ^ (32 - len) == base / 2 ^ (32 - len)

/-- main.py line 184: allowed_network = ip_network("127.0.0.1/32"). -/
def allowedNetworkContains (ip : Nat) : Bool := inNetwork ip (ipv4 127 0 0 1) 32

/-- POST /register (main.py, register): reject role admin (case-insensitively,
via .lower()) with 403 before any other check; reject an already registered
email with 400; otherwise insert a new user whose stored role is the literal
"staff", whatever role was requested. -/
def register (user : UserCreate) (db : Db) : Except HTTPError String × Db :=
  if strLower user.role == "admin" then
    (.error ⟨403, "Admin registration not allowed"⟩, db)
  else if (db.users.find? fun x => x.email == user.email).isSome then
    (.error ⟨400, "Email already registered"⟩, db)
  else
    (.ok "Staff registered successfully",
      { db with
        users := db.users ++
          [⟨db.nextUserId, user.full_name, user.email, hash_password user.password, "staff"⟩]
        nextUserId := db.nextUserId + 1 })

/-- Successful login response (main.py, login). -/
structure LoginResponse where
  access_token : String
  token_type : String
  role : String
deriving DecidableEq

/-- POST /login (main.py, login): look the user up by email; unknown email and
wrong password both raise 400 "Invalid credentials"; otherwise issue a token
carrying email and role. -/
def login (username password : String) (db : Db) : Except HTTPError LoginResponse :=
  match db.users.find? fun x => x.email == username with
  | none => .error ⟨400, "Invalid credentials"⟩
  | some db_user =>
    if ¬ verify_password password db_user.password then
      .error ⟨400, "Invalid credentials"⟩
    else
      .ok ⟨create_access_token db_user.email db_user.role, "bearer", db_user.role⟩

/-- POST /mark-attendance (main.py, mark_attendance), in source order: the
location gate, the staff-role gate, the already-marked check for (user, day),
the close-time window check, then classification (Late iff strictly after
late_time) and insertion of the new row. Every rejection leaves the store
unchanged (the exception is raised before db.add/commit). -/
def mark_attendance (client_ip : Nat) (current_user : UserRow) (now : Datetime)
    (db : Db) : Except HTTPError String × Db :=
  if ¬ allowedNetworkContains client_ip then
    (.error ⟨403, "Attendance allowed only on school network"⟩, db)
  else if current_user.role ≠ "staff" then
    (.error ⟨403, "Only staff can mark attendance"⟩, db)
  else if (db.attendance.find? fun a =>
      a.user_id == current_user.id && a.date == now.day).isSome then
    (.error ⟨400, "Already marked today"⟩, db)
  else if now.micros > close_time then
    (.error ⟨403, "Attendance closed for today"⟩, db)
  else
    let status := if now.micros > late_time then "Late" else "Present"
    (.ok status,
      { db with
        attendance := db.attendance ++
          [⟨db.nextAttendanceId, current_user.id, now.day, now, status⟩]
        nextAttendanceId := db.nextAttendanceId + 1 })

/-- GET /absentees (main.py, get_absentees): admin-gated; staff users with no
attendance row dated today. The endpoint serialises each absentee to
(id, full_name, email); the full rows are kept here, which preserves the
count the claims are about. -/
def get_absentees (current_user : UserRow) (today : Nat) (db : Db) :
    Except HTTPError (List UserRow) :=
  if current_user.role ≠ "admin" then .error ⟨403, "Admin access required"⟩
  else
    let staff_users := db.users.filter fun u => u.role == "staff"
    let attended := db.attendance.filter fun a => a.date == today
    let attended_ids := attended.map fun a => a.user_id
    .ok (staff_users.filter fun u => !decide (u.id ∈ attended_ids))

/-- Response of GET /daily-summary (main.py, daily_summary). absent_count is
computed with Python integer subtraction, hence an Int. -/
structure Summary where
  total_staff : Nat
  present_count : Nat
  late_count : Nat
  absent_count : Int
deriving DecidableEq

/-- GET /daily-summary (main.py, daily_summary): admin-gated; counts staff
users, Present rows dated today, Late rows dated today, and derives
absent_count = total_staff - present_count - late_count. -/
def daily_summary (current_user : UserRow) (today : Nat) (db : Db) :
    Except HTTPError Summary :=
  if current_user.role ≠ "admin" then .error ⟨403, "Admins-only"⟩
  else
    let staff_users := db.users.filter fun u => u.role == "staff"
    let present := db.attendance.filter fun a => a.date == today && a.status == "Present"
    let late := db.attendance.filter fun a => a.date == today && a.status == "Late"
    .ok ⟨staff_users.length, present.length, late.length,
      (staff_users.length : Int) - present.length - late.length⟩

/-- DELETE /delete-staff/{staff_id} (main.py, delete_staff): admin-gated; 404
unless a user with this id and role staff exists; otherwise delete that
user's attendance rows, then the user row. -/
def delete_staff (current_user : UserRow) (staff_id : Nat) (db : Db) :
    Except HTTPError String × Db :=
  if current_user.role ≠ "admin" then (.error ⟨403, "Admins only"⟩, db)
  else
    match db.users.find? fun u => u.id == staff_id && u.role == "staff" with
    | none => (.error ⟨404, "Staff not found"⟩, db)
    | some _ =>
      (.ok "Staff deleted successfully",
        { db with
          users := db.users.filter fun u => u.id != staff_id
          attendance := db.attendance.filter fun a => a.user_id != staff_id })

/-- Names of the Column attributes defined inside class User in models.py
(lines 9-16): id, full_name, email, password, role. -/
def userClassColumns : List String := ["id", "full_name", "email", "password", "role"]

/-- Column assignments at module level of models.py (line 7): reset_token is
declared outside class User, so it is an attribute of the module, not of the
class. -/
def modelsModuleColumns : List String := ["reset_token"]

/-- Python attribute lookup models.User.name: it resolves iff the name is
declared in the class body; a module-level assignment is not an attribute of
the class, so looking it up there raises AttributeError. -/
def userClassAttr (name : String) : Option String :=
  if name ∈ userClassColumns then some name else none

/-- Application-level error outcomes: an HTTPException, or an uncaught Python
exception such as AttributeError (surfaced by the framework as a 500). -/
inductive AppError where
  | http : HTTPError → AppError
  | attributeError : String → AppError
deriving DecidableEq

/-- POST /forgot-password (main.py, forgot_password): 404 for an unknown
email; otherwise generate a token (passed in here, since
secrets.token_urlsafe is random), assign it to user.reset_token and return
it. Because reset_token is not a mapped column of class User
(userClassAttr "reset_token" = none, models.py line 7), the assignment only
creates a transient Python attribute on the instance and db.commit()
persists no change: the store comes back unchanged. -/
def forgot_password (email token : String) (db : Db) : Except AppError String × Db :=
  match db.users.find? fun x => x.email == email with
  | none => (.error (.http ⟨404, "Email not found"⟩), db)
  | some _ => (.ok token, db)

/-- POST /reset-password (main.py, reset_password): the handler builds the
filter models.User.reset_token == token, whose first step is the class
attribute lookup of reset_token on User; class User declares no such column
(models.py line 7 puts it at module level), so the lookup raises
AttributeError before the store is consulted. The other branch mirrors the
source text below that point (main.py lines 297-306); it is unreachable, and
with no reset_token column ever persisted no user could match the token. -/
def reset_password (token new_password : String) (db : Db) :
    Except AppError String × Db :=
  match userClassAttr "reset_token" with
  | none => (.error (.attributeError "reset_token"), db)
  | some _ => (.error (.http ⟨400, "Invalid token"⟩), db)

/-- The constraints models.py actually declares on the two tables: users.id
and attendance.id are primary keys, users.email is UNIQUE, and
attendance.user_id is a foreign key into users. models.py declares no
uniqueness constraint on (user_id, date). -/
def dbSchemaOk (db : Db) : Prop :=
  (db.users.map UserRow.id).Nodup ∧
  (db.users.map UserRow.email).Nodup ∧
  (db.attendance.map AttendanceRow.id).Nodup ∧
  ∀ a ∈ db.attendance, a.user_id ∈ db.users.map UserRow.id

instance (db : Db) : Decidable (dbSchemaOk db) := by
  unfold dbSchemaOk; infer_instance

/-- At most one attendance record exists per (user, date) pair. -/
def atMostOnePerUserDate (db : Db) : Prop :=
  (db.attendance.map fun a => (a.user_id, a.date)).Nodup

instance (db : Db) : Decidable (atMostOnePerUserDate db) := by
  unfold atMostOnePerUserDate; infer_instance

/-- A store satisfying every constraint models.py declares while holding two
attendance rows for user 1 on day 738000. -/
def duplicateDayDb : Db :=
  ⟨[⟨1, "Ama Mensah", "ama@school.com", "$hash$pw", "staff"⟩],
   [⟨1, 1, 738000, ⟨738000, microsOfTime 7 10 0⟩, "Present"⟩,
    ⟨2, 1, 738000, ⟨738000, microsOfTime 7 12 0⟩, "Present"⟩], 2, 3⟩

/-- A staff user row reused by several concrete instantiations. -/
def amaStaff : UserRow := ⟨2, "Ama Mensah", "ama@school.com", "$hash$pw", "staff"⟩

/-- Round half to even of a rational: the semantics of Python's round builtin
on a number, with the binary floating representation idealised as exact
arithmetic. -/
def roundHalfEven (q : ℚ) : ℤ :=
  if q - ⌊q⌋ < 1/2 then ⌊q⌋
  else if q - ⌊q⌋ > 1/2 then ⌊q⌋ + 1
  else if ⌊q⌋ % 2 = 0 then ⌊q⌋ else ⌊q⌋ + 1

/-- Python round(x, 2): round to two decimal places. -/
def round2 (q : ℚ) : ℚ := (roundHalfEven (q * 100) : ℚ) / 100

/-- One element of the list returned by GET /attendance-percentage. -/
structure PercentEntry where
  full_name : String
  present_days : Nat
  late_days : Nat
  attendance_percentage : ℚ
deriving DecidableEq

/-- Loop body of attendance_percentage (main.py lines 405-427) for one staff
user: count the user's records, the Present ones and the Late ones, then
percentage = round((attended_days / total_days) * 100, 2) under the
total_days > 0 guard, and the initialisation percentage = 0 otherwise. -/
def percentEntryFor (db : Db) (user : UserRow) : PercentEntry :=
  let records := db.attendance.filter fun a => a.user_id == user.id
  let total_days := records.length
  let present_days := (records.filter fun r => r.status == "Present").length
  let late_days := (records.filter fun r => r.status == "Late").length
  let attended_days := present_days + late_days
  let percentage : ℚ :=
    if total_days > 0 then round2 ((attended_days : ℚ) / (total_days : ℚ) * 100) else 0
  ⟨user.full_name, present_days, late_days, percentage⟩

/-- GET /attendance-percentage (main.py, attendance_percentage): admin-gated;
one entry per staff user, in table order. -/
def attendance_percentage (current_user : UserRow) (db : Db) :
    Except HTTPError (List PercentEntry) :=
  if current_user.role ≠ "admin" then .error ⟨403, "Admins only"⟩
  else .ok ((db.users.filter fun u => u.role == "staff").map (percentEntryFor db))

/-- Claim C3 theorem: the location gate comes first in mark_attendance. A
request from an address outside the approved range is rejected 403
"Attendance allowed only on school network" whatever the user, the timestamp
(in particular inside the valid check-in window) or the store, and the store
comes back unchanged: no attendance record is created. -/
theorem C3_location_gate_first (client_ip : Nat) (current_user : UserRow)
    (now : Datetime) (db : Db)
    (hip : allowedNetworkContains client_ip = false) :
    mark_attendance client_ip current_user now db =
      (.error ⟨403, "Attendance allowed only on school network"⟩, db) := by
  simp [mark_attendance, hip]

/-- Witness for C3: a staff user at an in-window time (07:15:00) from the
outside address 10.0.0.5 is rejected by the location gate and no record is
created. -/
theorem C3_location_gate_first_witness :
    allowedNetworkContains (ipv4 10 0 0 5) = false ∧
    mark_attendance (ipv4 10 0 0 5) ⟨2, "Ama Mensah", "ama@school.com", "$hash$pw", "staff"⟩
        ⟨738000, microsOfTime 7 15 0⟩ emptyDb =
      (.error ⟨403, "Attendance allowed only on school network"⟩, emptyDb) :=
  ⟨by decide, C3_location_gate_first _ _ _ _ (by decide)⟩

/-- Claim C5 theorem: the public register endpoint rejects a requested admin
role with 403 before looking at the rest of the payload or the store, and any
successfully created user is stored with role "staff" (an ok outcome only
adds users whose role is "staff"). -/
theorem C5_register_role_policy (payload : UserCreate) (db : Db) :
    (strLower payload.role = "admin" →
      register payload db = (.error ⟨403, "Admin registration not allowed"⟩, db)) ∧
    (∀ msg db2, register payload db = (.ok msg, db2) →
      ∀ u ∈ db2.users, u ∈ db.users ∨ u.role = "staff") := by
  constructor
  · intro h
    simp [register, h]
  · intro msg db2 hok u hu
    by_cases hadmin : strLower payload.role == "admin"
    · simp [register, hadmin] at hok
    · by_cases hmail : (db.users.find? fun x => x.email == payload.email).isSome
      · simp [register, hadmin, hmail] at hok
      · simp [register, hadmin, hmail] at hok
        rcases hok with ⟨hmsg, hdb⟩
        subst hdb
        simp at hu
        rcases hu with hu | hu
        · exact Or.inl hu
        · subst hu
          exact Or.inr rfl

/-- Witness for C5: registering with role "admin" on the empty store is
rejected 403, and a successful registration with role "boss" stores the new
user with role "staff". -/
theorem C5_register_role_policy_witness :
    register ⟨"Eve", "eve@school.com", "pw", "admin"⟩ emptyDb =
      (.error ⟨403, "Admin registration not allowed"⟩, emptyDb) ∧
    (∀ u ∈ (register ⟨"Bob", "bob@school.com", "pw", "boss"⟩ emptyDb).2.users,
      u ∈ emptyDb.users ∨ u.role = "staff") := by
  refine ⟨(C5_register_role_policy ⟨"Eve", "eve@school.com", "pw", "admin"⟩ emptyDb).1 (by decide), ?_⟩
  intro u hu
  exact (C5_register_role_policy ⟨"Bob", "bob@school.com", "pw", "boss"⟩ emptyDb).2
    "Staff registered successfully"
    (register ⟨"Bob", "bob@school.com", "pw", "boss"⟩ emptyDb).2 (by decide) u hu

/-- Claim C8 theorem: login with a registered email but a failing password and
login with an unregistered email produce the same outcome, the 400 error with
detail "Invalid credentials"; the response does not reveal whether the email
exists. -/
theorem C8_login_no_user_oracle (db : Db) (e1 p1 e2 p2 : String) (u : UserRow)
    (h1 : (db.users.find? fun x => x.email == e1) = some u)
    (h2 : verify_password p1 u.password = false)
    (h3 : (db.users.find? fun x => x.email == e2) = none) :
    login e1 p1 db = .error ⟨400, "Invalid credentials"⟩ ∧
    login e2 p2 db = login e1 p1 db := by
  have hl1 : login e1 p1 db = .error ⟨400, "Invalid credentials"⟩ := by
    simp [login, h1, h2]
  have hl2 : login e2 p2 db = .error ⟨400, "Invalid credentials"⟩ := by
    simp [login, h3]
  exact ⟨hl1, by rw [hl1, hl2]⟩

/-- Witness for C8: on a store holding only Alice, logging in as Alice with a
wrong password and logging in as the unknown Bob yield the same 400 error. -/
theorem C8_login_no_user_oracle_witness :
    login "alice@school.com" "wrongpw" ⟨[⟨1, "Alice", "alice@school.com",
        hash_password "rightpw", "staff"⟩], [], 2, 1⟩ =
      .error ⟨400, "Invalid credentials"⟩ ∧
    login "bob@school.com" "anything" ⟨[⟨1, "Alice", "alice@school.com",
        hash_password "rightpw", "staff"⟩], [], 2, 1⟩ =
      login "alice@school.com" "wrongpw" ⟨[⟨1, "Alice", "alice@school.com",
        hash_password "rightpw", "staff"⟩], [], 2, 1⟩ :=
  C8_login_no_user_oracle _ "alice@school.com" "wrongpw" "bob@school.com" "anything"
    ⟨1, "Alice", "alice@school.com", hash_password "rightpw", "staff"⟩
    (by decide) (by decide) (by decide)

/-- Claim C1 counterexample: the store duplicateDayDb holds two attendance
rows for user 1 on the same date yet satisfies every constraint the schema in
models.py declares — the storage schema does not enforce uniqueness of
(user_id, date), contradicting the claim's schema part. -/
theorem C1_schema_no_unique_counterexample :
    dbSchemaOk duplicateDayDb ∧ ¬ atMostOnePerUserDate duplicateDayDb := by
  decide

/-- Claim C1 theorem (amended): for a staff check-in from an allowed address,
the handler rejects with 400 "Already marked today" whenever a record for
(user, day) already exists, leaving the store unchanged, and mark_attendance
preserves at-most-one-record-per-(user, date); this uniqueness is enforced by
the application-level check only, the schema declaring no
UNIQUE(user_id, date). -/
theorem C1_per_day_uniqueness (client_ip : Nat) (current_user : UserRow)
    (now : Datetime) (db : Db)
    (hip : allowedNetworkContains client_ip = true)
    (hrole : current_user.role = "staff") :
    ((∃ a ∈ db.attendance, a.user_id = current_user.id ∧ a.date = now.day) →
      mark_attendance client_ip current_user now db =
        (.error ⟨400, "Already marked today"⟩, db)) ∧
    (atMostOnePerUserDate db →
      atMostOnePerUserDate (mark_attendance client_ip current_user now db).2) := by
  constructor
  · intro hex
    have hsome : (db.attendance.find? fun a =>
        a.user_id == current_user.id && a.date == now.day).isSome := by
      rw [List.find?_isSome]
      rcases hex with ⟨a, ha, h1, h2⟩
      exact ⟨a, ha, by simp [h1, h2]⟩
    simp [mark_attendance, hip, hrole, hsome]
  · intro hinv
    by_cases hex : (db.attendance.find? fun a =>
        a.user_id == current_user.id && a.date == now.day).isSome
    · simpa [mark_attendance, hip, hrole, hex] using hinv
    · by_cases hcl : now.micros > close_time
      · simpa [mark_attendance, hip, hrole, hex, hcl] using hinv
      · have hnotin : (current_user.id, now.day) ∉
            db.attendance.map fun a => (a.user_id, a.date) := by
          intro hmem
          rcases List.mem_map.mp hmem with ⟨a, ha, hpair⟩
          apply hex
          rw [List.find?_isSome]
          refine ⟨a, ha, ?_⟩
          have h1 : a.user_id = current_user.id := congrArg Prod.fst hpair
          have h2 : a.date = now.day := congrArg Prod.snd hpair
          simp [h1, h2]
        unfold atMostOnePerUserDate at hinv ⊢
        simp only [mark_attendance, hip, hrole, hex, hcl]
        simp only [if_true, if_false]
        simp [List.nodup_append, hinv, hnotin]
    
/-- Witness for C1: the concrete store duplicateSetup (Ama with one record on
day 738000) makes a second same-day check-in fail 400, and a fresh check-in
on the empty store preserves the per-(user, date) uniqueness invariant. -/
theorem C1_per_day_uniqueness_witness :
    mark_attendance (ipv4 127 0 0 1) ⟨1, "Ama Mensah", "ama@school.com", "$hash$pw", "staff"⟩
        ⟨738000, microsOfTime 7 15 0⟩
        ⟨[⟨1, "Ama Mensah", "ama@school.com", "$hash$pw", "staff"⟩],
         [⟨1, 1, 738000, ⟨738000, microsOfTime 7 10 0⟩, "Present"⟩], 2, 2⟩ =
      (.error ⟨400, "Already marked today"⟩,
       ⟨[⟨1, "Ama Mensah", "ama@school.com", "$hash$pw", "staff"⟩],
        [⟨1, 1, 738000, ⟨738000, microsOfTime 7 10 0⟩, "Present"⟩], 2, 2⟩) ∧
    atMostOnePerUserDate
      (mark_attendance (ipv4 127 0 0 1) amaStaff ⟨738000, microsOfTime 7 15 0⟩ emptyDb).2 := by
  constructor
  · exact (C1_per_day_uniqueness _ _ _ _ (by decide) rfl).1
      ⟨⟨1, 1, 738000, ⟨738000, microsOfTime 7 10 0⟩, "Present"⟩, by decide, rfl, rfl⟩
  · exact (C1_per_day_uniqueness _ _ _ _ (by decide) rfl).2 (by decide)

/-- Claim C2 theorem: for a staff check-in from an allowed address with no
existing record for (user, day): strictly after 08:00:00 the attempt is
rejected 403 "Attendance closed for today" and the store is unchanged;
otherwise it succeeds with status "Late" exactly when the time of day is
strictly after 07:30:00 and "Present" otherwise. -/
theorem C2_window_classification (client_ip : Nat) (current_user : UserRow)
    (now : Datetime) (db : Db)
    (hip : allowedNetworkContains client_ip = true)
    (hrole : current_user.role = "staff")
    (hnone : (db.attendance.find? fun a =>
        a.user_id == current_user.id && a.date == now.day) = none) :
    (now.micros > close_time →
      mark_attendance client_ip current_user now db =
        (.error ⟨403, "Attendance closed for today"⟩, db)) ∧
    (now.micros ≤ close_time →
      (mark_attendance client_ip current_user now db).1 =
        .ok (if now.micros > late_time then "Late" else "Present")) := by
  constructor
  · intro h
    simp [mark_attendance, hip, hrole, hnone, h]
  · intro h
    have hcl : ¬ now.micros > close_time := not_lt.mpr h
    simp [mark_attendance, hip, hrole, hnone, hcl]

/-- Witness for C2 at the claim's three boundary inputs: a check-in at
07:29:59 yields Present, at 07:30:01 yields Late, and at 08:00:01 is
rejected with the window-closed error. -/
theorem C2_window_classification_witness :
    (mark_attendance (ipv4 127 0 0 1) amaStaff ⟨738000, microsOfTime 7 29 59⟩ emptyDb).1 =
      .ok "Present" ∧
    (mark_attendance (ipv4 127 0 0 1) amaStaff ⟨738000, microsOfTime 7 30 1⟩ emptyDb).1 =
      .ok "Late" ∧
    mark_attendance (ipv4 127 0 0 1) amaStaff ⟨738000, microsOfTime 8 0 1⟩ emptyDb =
      (.error ⟨403, "Attendance closed for today"⟩, emptyDb) := by
  refine ⟨?_, ?_, ?_⟩
  · have h := (C2_window_classification (ipv4 127 0 0 1) amaStaff
      ⟨738000, microsOfTime 7 29 59⟩ emptyDb (by decide) rfl (by decide)).2 (by decide)
    simpa using h
  · have h := (C2_window_classification (ipv4 127 0 0 1) amaStaff
      ⟨738000, microsOfTime 7 30 1⟩ emptyDb (by decide) rfl (by decide)).2 (by decide)
    simpa using h
  · exact (C2_window_classification (ipv4 127 0 0 1) amaStaff
      ⟨738000, microsOfTime 8 0 1⟩ emptyDb (by decide) rfl (by decide)).1 (by decide)

/-- Claim C4 theorem: on a store holding the registered user Alice, the round
trip request-reset then consume-reset does not succeed even once: the consume
step fails with AttributeError because models.py declares reset_token at
module level instead of inside class User, so the token is never persisted
and the claimed single-use success cannot happen. -/
theorem C4_reset_round_trip_attribute_error :
    (forgot_password "alice@school.com" "tok123"
      ⟨[⟨1, "Alice", "alice@school.com", hash_password "pw", "staff"⟩], [], 2, 1⟩).1 =
      .ok "tok123" ∧
    reset_password "tok123" "NewPw1"
      (forgot_password "alice@school.com" "tok123"
        ⟨[⟨1, "Alice", "alice@school.com", hash_password "pw", "staff"⟩], [], 2, 1⟩).2 =
      (.error (.attributeError "reset_token"),
       (forgot_password "alice@school.com" "tok123"
        ⟨[⟨1, "Alice", "alice@school.com", hash_password "pw", "staff"⟩], [], 2, 1⟩).2) := by
  decide

/-- Claim C9 theorem: delete-staff called by an admin: when no user with the
given id and role staff exists (in particular when the id belongs to an
admin) the outcome is 404 "Staff not found" with the store unchanged;
otherwise the outcome is ok, the surviving users are exactly those with a
different id, and the surviving attendance rows are exactly those belonging
to other users, so no other user's records are affected. -/
theorem C9_delete_staff_cascade (current_user : UserRow) (staff_id : Nat) (db : Db)
    (hadmin : current_user.role = "admin") :
    ((db.users.find? fun u => u.id == staff_id && u.role == "staff") = none →
      delete_staff current_user staff_id db = (.error ⟨404, "Staff not found"⟩, db)) ∧
    (∀ s, (db.users.find? fun u => u.id == staff_id && u.role == "staff") = some s →
      (delete_staff current_user staff_id db).1 = .ok "Staff deleted successfully" ∧
      (∀ u : UserRow, u ∈ (delete_staff current_user staff_id db).2.users ↔
        (u ∈ db.users ∧ u.id ≠ staff_id)) ∧
      (∀ a : AttendanceRow, a ∈ (delete_staff current_user staff_id db).2.attendance ↔
        (a ∈ db.attendance ∧ a.user_id ≠ staff_id))) := by
  constructor
  · intro hnone
    simp [delete_staff, hadmin, hnone]
  · intro s hsome
    refine ⟨by simp [delete_staff, hadmin, hsome], ?_, ?_⟩
    · intro u
      simp [delete_staff, hadmin, hsome, List.mem_filter]
    · intro a
      simp [delete_staff, hadmin, hsome, List.mem_filter]

/-- Witness for C9 on a concrete store holding the admin (id 1), the staff
members Ama (id 2, one record) and Kofi (id 3, one record): deleting id 1
fails 404 with the store unchanged, while deleting id 2 succeeds, keeps
exactly the users with other ids, and keeps exactly Kofi's record. -/
theorem C9_delete_staff_cascade_witness :
    delete_staff ⟨1, "System Admin", "admin@school.com", "$hash$Admin@123", "admin"⟩ 1
      ⟨[⟨1, "System Admin", "admin@school.com", "$hash$Admin@123", "admin"⟩,
        ⟨2, "Ama Mensah", "ama@school.com", "$hash$pw", "staff"⟩,
        ⟨3, "Kofi Boateng", "kofi@school.com", "$hash$pw", "staff"⟩],
       [⟨1, 2, 738000, ⟨738000, microsOfTime 7 10 0⟩, "Present"⟩,
        ⟨2, 3, 738000, ⟨738000, microsOfTime 7 40 0⟩, "Late"⟩], 4, 3⟩ =
      (.error ⟨404, "Staff not found"⟩,
       ⟨[⟨1, "System Admin", "admin@school.com", "$hash$Admin@123", "admin"⟩,
         ⟨2, "Ama Mensah", "ama@school.com", "$hash$pw", "staff"⟩,
         ⟨3, "Kofi Boateng", "kofi@school.com", "$hash$pw", "staff"⟩],
        [⟨1, 2, 738000, ⟨738000, microsOfTime 7 10 0⟩, "Present"⟩,
         ⟨2, 3, 738000, ⟨738000, microsOfTime 7 40 0⟩, "Late"⟩], 4, 3⟩) ∧
    ((delete_staff ⟨1, "System Admin", "admin@school.com", "$hash$Admin@123", "admin"⟩ 2
      ⟨[⟨1, "System Admin", "admin@school.com", "$hash$Admin@123", "admin"⟩,
        ⟨2, "Ama Mensah", "ama@school.com", "$hash$pw", "staff"⟩,
        ⟨3, "Kofi Boateng", "kofi@school.com", "$hash$pw", "staff"⟩],
       [⟨1, 2, 738000, ⟨738000, microsOfTime 7 10 0⟩, "Present"⟩,
        ⟨2, 3, 738000, ⟨738000, microsOfTime 7 40 0⟩, "Late"⟩], 4, 3⟩).1 =
      .ok "Staff deleted successfully" ∧
     (⟨2, 3, 738000, ⟨738000, microsOfTime 7 40 0⟩, "Late"⟩ ∈
      (delete_staff ⟨1, "System Admin", "admin@school.com", "$hash$Admin@123", "admin"⟩ 2
      ⟨[⟨1, "System Admin", "admin@school.com", "$hash$Admin@123", "admin"⟩,
        ⟨2, "Ama Mensah", "ama@school.com", "$hash$pw", "staff"⟩,
        ⟨3, "Kofi Boateng", "kofi@school.com", "$hash$pw", "staff"⟩],
       [⟨1, 2, 738000, ⟨738000, microsOfTime 7 10 0⟩, "Present"⟩,
        ⟨2, 3, 738000, ⟨738000, microsOfTime 7 40 0⟩, "Late"⟩], 4, 3⟩).2.attendance)) := by
  refine ⟨(C9_delete_staff_cascade _ 1 _ rfl).1 (by decide), ?_, ?_⟩
  · exact ((C9_delete_staff_cascade _ 2 _ rfl).2
      ⟨2, "Ama Mensah", "ama@school.com", "$hash$pw", "staff"⟩ (by decide)).1
  · exact (((C9_delete_staff_cascade _ 2 _ rfl).2
      ⟨2, "Ama Mensah", "ama@school.com", "$hash$pw", "staff"⟩ (by decide)).2.2
      ⟨2, 3, 738000, ⟨738000, microsOfTime 7 40 0⟩, "Late"⟩).mpr ⟨by decide, by decide⟩

/-- Splitting a list of attendance rows whose statuses are all Present or
Late: the Present rows and the Late rows together count the whole list. -/
theorem present_late_split (l : List AttendanceRow)
    (h : ∀ a ∈ l, a.status = "Present" ∨ a.status = "Late") :
    (l.filter fun a => a.status == "Present").length +
      (l.filter fun a => a.status == "Late").length = l.length := by
  induction l with
  | nil => simp
  | cons a t ih =>
    have ht := ih fun b hb => h b (List.mem_cons_of_mem a hb)
    rcases h a (List.mem_cons_self a t) with hp | hl
    · simp [List.filter_cons, hp]
      omega
    · simp [List.filter_cons, hl]
      omega

/-- A list splits into the part satisfying a Bool predicate and the rest. -/
theorem length_filter_add_length_not (l : List UserRow) (p : UserRow → Bool) :
    (l.filter p).length + (l.filter fun u => !(p u)).length = l.length := by
  induction l with
  | nil => simp
  | cons u t ih =>
    cases hp : p u <;> simp [List.filter_cons, hp] <;> omega

/-- Counting rows whose id lies in a duplicate-free list of ids: when the
rows' ids are duplicate-free and every listed id is the id of some row, the
filtered length equals the length of the id list. -/
theorem length_filter_mem_ids (staff : List UserRow) (L : List Nat)
    (h1 : (staff.map UserRow.id).Nodup) (h2 : L.Nodup)
    (h3 : ∀ x ∈ L, x ∈ staff.map UserRow.id) :
    (staff.filter fun u => decide (u.id ∈ L)).length = L.length := by
  induction staff generalizing L with
  | nil =>
    have hL : L = [] := List.eq_nil_iff_forall_not_mem.mpr fun x hx => by
      simpa using h3 x hx
    simp [hL]
  | cons u rest ih =>
    simp only [List.map_cons, List.nodup_cons] at h1
    obtain ⟨hu_notin, hrest⟩ := h1
    by_cases hu : u.id ∈ L
    · have hL1 : (rest.filter fun v => decide (v.id ∈ L)) =
          rest.filter fun v => decide (v.id ∈ L.erase u.id) := by
        apply List.filter_congr
        intro v hv
        have hne : v.id ≠ u.id := fun hEq =>
          hu_notin (hEq ▸ List.mem_map_of_mem UserRow.id hv)
        simp [decide_eq_decide, List.mem_erase_of_ne hne]
      have hsub : ∀ x ∈ L.erase u.id, x ∈ rest.map UserRow.id := by
        intro x hx
        have hxL := h2.mem_erase_iff.mp hx
        have hx2 := h3 x hxL.2
        simp only [List.map_cons, List.mem_cons] at hx2
        exact hx2.resolve_left hxL.1
      have hlen := List.length_erase_of_mem hu
      have hposL := List.length_pos_of_mem hu
      have hrec := ih (L.erase u.id) hrest (h2.erase u.id) hsub
      simp [List.filter_cons, hu, hL1, hrec]
      omega
    · have hsub : ∀ x ∈ L, x ∈ rest.map UserRow.id := by
        intro x hx
        have hx2 := h3 x hx
        simp only [List.map_cons, List.mem_cons] at hx2
        rcases hx2 with hEq | hm
        · exact absurd (hEq ▸ hx) hu
        · exact hm
      simp [List.filter_cons, hu, ih L hrest h2 hsub]

/-- Claim C6 theorem: for an admin caller and any date, on a store satisfying
the engine's reachable-state invariants (duplicate-free user ids, at most one
record per user on the date, every record on the date belonging to a staff
user, and only Present or Late statuses), the absent_count that daily_summary
derives as total minus Present minus Late equals the length of the absentee
list that get_absentees returns. -/
theorem C6_absent_count_matches_absentees (current_user : UserRow) (today : Nat)
    (db : Db)
    (hadmin : current_user.role = "admin")
    (hids : (db.users.map UserRow.id).Nodup)
    (honce : ((db.attendance.filter fun a => a.date == today).map
      AttendanceRow.user_id).Nodup)
    (hstaffrec : ∀ a ∈ db.attendance, a.date = today →
      a.user_id ∈ (db.users.filter fun u => u.role == "staff").map UserRow.id)
    (hstatus : ∀ a ∈ db.attendance, a.status = "Present" ∨ a.status = "Late") :
    daily_summary current_user today db =
      .ok ⟨(db.users.filter fun u => u.role == "staff").length,
        (db.attendance.filter fun a => a.date == today && a.status == "Present").length,
        (db.attendance.filter fun a => a.date == today && a.status == "Late").length,
        (((db.users.filter fun u => u.role == "staff").filter fun u =>
          !decide (u.id ∈ (db.attendance.filter fun a => a.date == today).map
            AttendanceRow.user_id)).length : Int)⟩ ∧
    get_absentees current_user today db =
      .ok ((db.users.filter fun u => u.role == "staff").filter fun u =>
        !decide (u.id ∈ (db.attendance.filter fun a => a.date == today).map
          AttendanceRow.user_id)) := by
  constructor
  · have hP : (db.attendance.filter fun a => a.date == today && a.status == "Present") =
        (db.attendance.filter fun a => a.date == today).filter
          fun a => a.status == "Present" := by
      rw [List.filter_filter]
      apply List.filter_congr
      intro a _
      rw [Bool.and_comm]
    have hL : (db.attendance.filter fun a => a.date == today && a.status == "Late") =
        (db.attendance.filter fun a => a.date == today).filter
          fun a => a.status == "Late" := by
      rw [List.filter_filter]
      apply List.filter_congr
      intro a _
      rw [Bool.and_comm]
    have hsplit := present_late_split (db.attendance.filter fun a => a.date == today)
      fun a ha => hstatus a (List.mem_filter.mp ha).1
    have hcomp := length_filter_add_length_not
      (db.users.filter fun u => u.role == "staff")
      fun u => decide (u.id ∈ (db.attendance.filter fun a => a.date == today).map
        AttendanceRow.user_id)
    have hstaffids : ((db.users.filter fun u => u.role == "staff").map UserRow.id).Nodup :=
      hids.sublist ((List.filter_sublist db.users).map UserRow.id)
    have hmem : ∀ x ∈ (db.attendance.filter fun a => a.date == today).map
        AttendanceRow.user_id,
        x ∈ (db.users.filter fun u => u.role == "staff").map UserRow.id := by
      intro x hx
      rcases List.mem_map.mp hx with ⟨a, ha, hax⟩
      rcases List.mem_filter.mp ha with ⟨hmem, hdate⟩
      exact hax ▸ hstaffrec a hmem (by simpa using hdate)
    have hin := length_filter_mem_ids (db.users.filter fun u => u.role == "staff")
      ((db.attendance.filter fun a => a.date == today).map AttendanceRow.user_id)
      hstaffids honce hmem
    rw [List.length_map] at hin
    simp only [daily_summary, hadmin, ne_eq, not_true_eq_false, if_false,
      reduceIte, Except.ok.injEq, Summary.mk.injEq]
    refine ⟨trivial, trivial, trivial, ?_⟩
    rw [hP, hL]
    omega
  · simp [get_absentees, hadmin]

/-- Witness for C6 on a concrete store: the admin, two staff members Ama
(id 2, Present record today) and Kofi (id 3, no record); daily_summary
reports absent_count 1 and get_absentees returns exactly Kofi. -/
theorem C6_absent_count_matches_absentees_witness :
    daily_summary ⟨1, "System Admin", "admin@school.com", "$hash$Admin@123", "admin"⟩ 738000
      ⟨[⟨1, "System Admin", "admin@school.com", "$hash$Admin@123", "admin"⟩,
        ⟨2, "Ama Mensah", "ama@school.com", "$hash$pw", "staff"⟩,
        ⟨3, "Kofi Boateng", "kofi@school.com", "$hash$pw", "staff"⟩],
       [⟨1, 2, 738000, ⟨738000, microsOfTime 7 10 0⟩, "Present"⟩], 4, 2⟩ =
      .ok ⟨2, 1, 0, 1⟩ ∧
    get_absentees ⟨1, "System Admin", "admin@school.com", "$hash$Admin@123", "admin"⟩ 738000
      ⟨[⟨1, "System Admin", "admin@school.com", "$hash$Admin@123", "admin"⟩,
        ⟨2, "Ama Mensah", "ama@school.com", "$hash$pw", "staff"⟩,
        ⟨3, "Kofi Boateng", "kofi@school.com", "$hash$pw", "staff"⟩],
       [⟨1, 2, 738000, ⟨738000, microsOfTime 7 10 0⟩, "Present"⟩], 4, 2⟩ =
      .ok [⟨3, "Kofi Boateng", "kofi@school.com", "$hash$pw", "staff"⟩] := by
  have h := C6_absent_count_matches_absentees
    ⟨1, "System Admin", "admin@school.com", "$hash$Admin@123", "admin"⟩ 738000
    ⟨[⟨1, "System Admin", "admin@school.com", "$hash$Admin@123", "admin"⟩,
      ⟨2, "Ama Mensah", "ama@school.com", "$hash$pw", "staff"⟩,
      ⟨3, "Kofi Boateng", "kofi@school.com", "$hash$pw", "staff"⟩],
     [⟨1, 2, 738000, ⟨738000, microsOfTime 7 10 0⟩, "Present"⟩], 4, 2⟩
    rfl (by decide) (by decide) (by decide) (by decide)
  exact ⟨h.1.trans (by decide), h.2.trans (by decide)⟩

/-- Evaluating the model of Python round at the full percentage:
round(100, 2) = 100. -/
theorem round2_hundred : round2 100 = 100 := by
  have h1 : ((100 : ℚ) * 100) = ((10000 : ℤ) : ℚ) := by norm_num
  rw [round2, roundHalfEven, h1, Int.floor_intCast]
  norm_num

/-- Claim C7 theorem: for an admin caller, attendance-percentage returns one
entry per staff user; an entry's percentage is 0 when the user has no
attendance records (the zero-total guard, so no division error can arise),
and otherwise equals (present_count + late_count) / total_record_count * 100
rounded to two decimal places. -/
theorem C7_attendance_percentage_formula (current_user : UserRow) (db : Db)
    (hadmin : current_user.role = "admin") :
    attendance_percentage current_user db =
      .ok ((db.users.filter fun u => u.role == "staff").map (percentEntryFor db)) ∧
    ∀ u : UserRow,
      ((db.attendance.filter fun a => a.user_id == u.id).length = 0 →
        (percentEntryFor db u).attendance_percentage = 0) ∧
      (0 < (db.attendance.filter fun a => a.user_id == u.id).length →
        (percentEntryFor db u).attendance_percentage =
          round2 ((((db.attendance.countP fun a => a.user_id == u.id && a.status == "Present") :
              ℚ) +
              ((db.attendance.countP fun a => a.user_id == u.id && a.status == "Late") : ℚ)) /
            ((db.attendance.filter fun a => a.user_id == u.id).length : ℚ) * 100)) := by
  refine ⟨by simp [attendance_percentage, hadmin], ?_⟩
  intro u
  have hPc : ((db.attendance.filter fun a => a.user_id == u.id).filter
      fun r => r.status == "Present").length =
      db.attendance.countP fun a => a.user_id == u.id && a.status == "Present" := by
    rw [List.filter_filter, List.countP_eq_length_filter]
    congr 1
    apply List.filter_congr
    intro a _
    rw [Bool.and_comm]
  have hLc : ((db.attendance.filter fun a => a.user_id == u.id).filter
      fun r => r.status == "Late").length =
      db.attendance.countP fun a => a.user_id == u.id && a.status == "Late" := by
    rw [List.filter_filter, List.countP_eq_length_filter]
    congr 1
    apply List.filter_congr
    intro a _
    rw [Bool.and_comm]
  constructor
  · intro h0
    simp [percentEntryFor, h0]
  · intro hpos
    simp only [percentEntryFor]
    rw [if_pos hpos, ← hPc, ← hLc]
    congr 1
    push_cast
    ring

/-- Witness for C7 on a concrete store: the admin sees one entry per staff
user, and the record-less Kofi gets percentage 0 rather than an error. -/
theorem C7_attendance_percentage_formula_witness :
    attendance_percentage ⟨1, "System Admin", "admin@school.com", "$hash$Admin@123", "admin"⟩
      ⟨[⟨1, "System Admin", "admin@school.com", "$hash$Admin@123", "admin"⟩,
        ⟨2, "Ama Mensah", "ama@school.com", "$hash$pw", "staff"⟩,
        ⟨3, "Kofi Boateng", "kofi@school.com", "$hash$pw", "staff"⟩],
       [⟨1, 2, 738000, ⟨738000, microsOfTime 7 10 0⟩, "Present"⟩], 4, 2⟩ =
      .ok (((⟨[⟨1, "System Admin", "admin@school.com", "$hash$Admin@123", "admin"⟩,
        ⟨2, "Ama Mensah", "ama@school.com", "$hash$pw", "staff"⟩,
        ⟨3, "Kofi Boateng", "kofi@school.com", "$hash$pw", "staff"⟩],
       [⟨1, 2, 738000, ⟨738000, microsOfTime 7 10 0⟩, "Present"⟩], 4, 2⟩ : Db).users.filter
          fun u => u.role == "staff").map
        (percentEntryFor ⟨[⟨1, "System Admin", "admin@school.com", "$hash$Admin@123", "admin"⟩,
          ⟨2, "Ama Mensah", "ama@school.com", "$hash$pw", "staff"⟩,
          ⟨3, "Kofi Boateng", "kofi@school.com", "$hash$pw", "staff"⟩],
         [⟨1, 2, 738000, ⟨738000, microsOfTime 7 10 0⟩, "Present"⟩], 4, 2⟩)) ∧
    (percentEntryFor ⟨[⟨1, "System Admin", "admin@school.com", "$hash$Admin@123", "admin"⟩,
        ⟨2, "Ama Mensah", "ama@school.com", "$hash$pw", "staff"⟩,
        ⟨3, "Kofi Boateng", "kofi@school.com", "$hash$pw", "staff"⟩],
       [⟨1, 2, 738000, ⟨738000, microsOfTime 7 10 0⟩, "Present"⟩], 4, 2⟩
      ⟨3, "Kofi Boateng", "kofi@school.com", "$hash$pw", "staff"⟩).attendance_percentage = 0 := by
  have h := C7_attendance_percentage_formula
    ⟨1, "System Admin", "admin@school.com", "$hash$Admin@123", "admin"⟩
    ⟨[⟨1, "System Admin", "admin@school.com", "$hash$Admin@123", "admin"⟩,
      ⟨2, "Ama Mensah", "ama@school.com", "$hash$pw", "staff"⟩,
      ⟨3, "Kofi Boateng", "kofi@school.com", "$hash$pw", "staff"⟩],
     [⟨1, 2, 738000, ⟨738000, microsOfTime 7 10 0⟩, "Present"⟩], 4, 2⟩ rfl
  exact ⟨h.1, (h.2 ⟨3, "Kofi Boateng", "kofi@school.com", "$hash$pw", "staff"⟩).1 (by decide)⟩

/-- Claim C10 theorem: when every persisted status is Present or Late (the
only statuses mark_attendance ever writes), a user's percentage entry equals
exactly 100 as soon as the user has at least one attendance record, and is
never strictly between 0 and 100: it is either 0 or 100. -/
theorem C10_percentage_all_or_nothing (db : Db) (u : UserRow)
    (hstatus : ∀ a ∈ db.attendance, a.status = "Present" ∨ a.status = "Late") :
    (0 < (db.attendance.filter fun a => a.user_id == u.id).length →
      (percentEntryFor db u).attendance_percentage = 100) ∧
    ((percentEntryFor db u).attendance_percentage = 0 ∨
      (percentEntryFor db u).attendance_percentage = 100) := by
  have hsplit := present_late_split (db.attendance.filter fun a => a.user_id == u.id)
    fun a ha => hstatus a (List.mem_filter.mp ha).1
  have hmain : 0 < (db.attendance.filter fun a => a.user_id == u.id).length →
      (percentEntryFor db u).attendance_percentage = 100 := by
    intro hpos
    have hn : ((db.attendance.filter fun a => a.user_id == u.id).length : ℚ) ≠ 0 := by
      exact_mod_cast Nat.pos_iff_ne_zero.mp hpos
    simp only [percentEntryFor]
    rw [if_pos hpos, hsplit, div_self hn, one_mul]
    exact round2_hundred
  refine ⟨hmain, ?_⟩
  by_cases hpos : 0 < (db.attendance.filter fun a => a.user_id == u.id).length
  · exact Or.inr (hmain hpos)
  · left
    simp only [percentEntryFor]
    rw [if_neg hpos]

/-- Witness for C10: Ama has one record, a Present one, so her percentage is
exactly 100. -/
theorem C10_percentage_all_or_nothing_witness :
    0 < ((⟨[amaStaff], [⟨1, 2, 738000, ⟨738000, microsOfTime 7 10 0⟩, "Present"⟩], 3, 2⟩ :
        Db).attendance.filter fun a => a.user_id == amaStaff.id).length ∧
    (percentEntryFor ⟨[amaStaff], [⟨1, 2, 738000, ⟨738000, microsOfTime 7 10 0⟩, "Present"⟩],
        3, 2⟩ amaStaff).attendance_percentage = 100 :=
  ⟨by decide,
   (C10_percentage_all_or_nothing
     ⟨[amaStaff], [⟨1, 2, 738000, ⟨738000, microsOfTime 7 10 0⟩, "Present"⟩], 3, 2⟩
     amaStaff (by decide)).1 (by decide)⟩
